import Mathlib

/-!
Shallow embedding of the IS.MUNI directory synchronizer (src/main.py).

The script keeps local directories ("channels") mirrored against a remote
document service.  We embed the synchronization decision engine
(`synchronize_directory`), the plugin registry (`PluginManager`), the
annotation inspector (`hasAnnotations`) and the orchestrator channel loop
of `main`, with the external effects (HTTP transport, filesystem, PDF
parsing, dynamic module loading) represented as explicit oracles so that
every definition is executable.

Modelling conventions:
* timestamps (`datetime` values compared with `>`) are `Nat`;
* the local filesystem is an association list `path -> LocalFile`
  (modification time plus raw content bytes);
* a Python exception is the `.error` branch of `Except String`;
* an XML `objekt` element carries `Option` fields: `none` means the child
  element is missing (so `.find(...).text` raises `AttributeError`) or,
  for `vlozeno`, that `datetime.strptime` fails;
* `fitz` page/annotation structure is a function from the file bytes to
  the list of per-page "has at least one annotation" flags;
* the HTTP download is a function from (server url path, file name) to
  `Option` bytes, `none` meaning a transport error;
* a plugin's `on_file_downloaded` hook is a function from the file path to
  `Except String Unit`, `.error` meaning the hook raised.
-/

/-- A local file as far as the script observes it: `os.path.getmtime` and
the bytes written by `download_file`. -/
structure LocalFile where
  mtime : Nat
  content : List Nat
deriving DecidableEq

/-- The local filesystem: association list from path to file. -/
abbrev FS := List (String × LocalFile)

/-- One `<objekt>` element of the XML listing.  `none` in `jmeno_souboru`
or `cesta` models a missing child element (`.text` on `None` raises);
`none` in `vlozeno` models a missing element or a timestamp that
`datetime.strptime` cannot parse — both raise inside the `try` block. -/
structure Objekt where
  jmeno_souboru : Option String
  cesta : Option String
  vlozeno : Option Nat
deriving DecidableEq

/-- A plugin instance: its `on_file_downloaded` hook, which may raise. -/
abbrev Plugin := String → Except String Unit

/-- The plugin registry built by `PluginManager.load_plugins`: channel name
to ordered list of plugin instances. -/
abbrev Registry := List (String × List Plugin)

/-- External world of the engine: PDF structure oracle, HTTP download
oracle, and the current wall-clock time a written file's mtime gets. -/
structure Env where
  pages : List Nat → List Bool
  dl : String → String → Option (List Nat)
  now : Nat

/-- `os.path.join(a, b)` for the simple relative names the script builds. -/
def pathJoin (a b : String) : String := a ++ "/" ++ b

/-- Python `s[-4:]`: the last four characters of `s` (all of `s` when it
is shorter). -/
def pySuffix4 (s : String) : String := String.mk (s.data.reverse.take 4).reverse

/-- Python `s.rsplit("/", 1)[0]`: everything before the last slash, or the
whole string when there is no slash. -/
def rsplit1 (s : String) : String :=
  let parts := s.splitOn "/"
  if parts.length ≤ 1 then s else String.intercalate "/" parts.dropLast

/-- Python `s.lstrip(slash)`: drop all leading slash characters. -/
def lstripSlash (s : String) : String := String.mk (s.data.dropWhile (· = '/'))

/-- `open(local_path, "wb").write(bytes)` after `os.makedirs`: overwrite the
existing entry or create a new one, with the current time as mtime. -/
def writeFS (fs : FS) (path : String) (bytes : List Nat) (now : Nat) : FS :=
  match fs with
  | [] => [(path, ⟨now, bytes⟩)]
  | (p, f) :: rest =>
    if p = path then (p, ⟨now, bytes⟩) :: rest
    else (p, f) :: writeFS rest path bytes now

/-- `hasAnnotations(file_path)`: anything not ending in the exact lowercase
string `.pdf` is assumed unable to carry annotations and reported `False`
without the file being opened; otherwise `fitz.open` reads the file (raising
if it cannot be opened) and the pages are scanned, returning `True` at the
first page with at least one annotation. -/
def hasAnnotations (pages : List Nat → List Bool) (fs : FS) (file_path : String) :
    Except String Bool :=
  if pySuffix4 file_path ≠ ".pdf" then .ok false
  else
    match fs.lookup file_path with
    | none => .error "fitz cannot open file"
    | some f => .ok ((pages f.content).any id)

/-- `download_file(local_path, server_url_path, file_name)`: the HTTP GET
either fails with a transport error (before anything is written) or
delivers bytes that are written to `local_path`. -/
def download_file (env : Env) (fs : FS) (local_path server_url_path file_name : String) :
    Except String FS :=
  match env.dl server_url_path file_name with
  | none => .error "transport error"
  | some bytes => .ok (writeFS fs local_path bytes env.now)

/-- `PluginManager.run_plugins` inner loop: invoke each plugin's
`on_file_downloaded` in order, propagating the first exception. -/
def run_list (ps : List Plugin) (file_path : String) : Except String Unit :=
  match ps with
  | [] => .ok ()
  | p :: rest =>
    match p file_path with
    | .error msg => .error msg
    | .ok _ => run_list rest file_path

/-- `PluginManager.run_plugins(channel_name, file_path)`: a no-op when the
channel has no entry in the registry. -/
def run_plugins (plugins : Registry) (channel_name file_path : String) :
    Except String Unit :=
  match plugins.lookup channel_name with
  | none => .ok ()
  | some ps => run_list ps file_path

/-- The fetch arm of the per-file loop: `download_file` then
`plugin_manager.run_plugins` then `downloaded_files += 1`, all inside the
`try`.  Returns (downloaded delta, errored delta, new filesystem): a
failure of the download leaves the filesystem untouched and counts the
file as errored; a failure of a plugin hook counts the file as errored
even though the downloaded bytes are already on disk. -/
def fetch_file (env : Env) (plugins : Registry) (channel local_path server_url_path file_name : String)
    (fs : FS) : Nat × Nat × FS :=
  match env.dl server_url_path file_name with
  | none => (0, 1, fs)
  | some bytes =>
    let fs1 := writeFS fs local_path bytes env.now
    match run_plugins plugins channel local_path with
    | .error _ => (0, 1, fs1)
    | .ok _ => (1, 0, fs1)

/-- The `try` block of the per-file loop, after `file_name` and `cesta`
have been extracted.  Every exception inside it is caught by the broad
`except`, which increments `errored_files`; so the block always yields
count deltas.  A `none` timestamp models `strptime`/`AttributeError`
raising on `vlozeno`.  When a local file exists it is re-downloaded only
if the server timestamp is strictly newer, and even then only if the
local PDF carries no annotations. -/
def process_body (env : Env) (plugins : Registry) (channel local_path server_url_path file_name : String)
    (fs : FS) (vlozeno : Option Nat) : Nat × Nat × FS :=
  match vlozeno with
  | none => (0, 1, fs)
  | some server_mod_time =>
    match fs.lookup local_path with
    | some lf =>
      if lf.mtime < server_mod_time then
        match hasAnnotations env.pages fs local_path with
        | .error _ => (0, 1, fs)
        | .ok true => (0, 0, fs)
        | .ok false => fetch_file env plugins channel local_path server_url_path file_name fs
      else (0, 0, fs)
    | none => fetch_file env plugins channel local_path server_url_path file_name fs

/-- One iteration of the per-`objekt` loop of `synchronize_directory`.
The extraction of `jmeno_souboru` and `cesta` happens before the `try`
block, so a missing file-name or path element raises an uncaught
`AttributeError` that propagates out of the whole channel. -/
def process_objekt (env : Env) (plugins : Registry) (channel local_full_path : String)
    (fs : FS) (o : Objekt) : Except String (Nat × Nat × FS) :=
  match o.jmeno_souboru with
  | none => .error "AttributeError: NoneType has no text"
  | some file_name =>
    let local_path := pathJoin local_full_path file_name
    match o.cesta with
    | none => .error "AttributeError: NoneType has no text"
    | some cesta =>
      let server_url_path := rsplit1 cesta ++ "/"
      .ok (process_body env plugins channel local_path server_url_path file_name fs o.vlozeno)

/-- The per-`objekt` loop of `synchronize_directory`, threading the
filesystem and the `downloaded_files` / `errored_files` counters. -/
def sync_loop (env : Env) (plugins : Registry) (channel local_full_path : String)
    (fs : FS) (objekts : List Objekt) (d e : Nat) : Except String (Nat × Nat × FS) :=
  match objekts with
  | [] => .ok (d, e, fs)
  | o :: rest =>
    match process_objekt env plugins channel local_full_path fs o with
    | .error msg => .error msg
    | .ok (dd, de, fs1) =>
      sync_loop env plugins channel local_full_path fs1 rest (d + dd) (e + de)

/-- `synchronize_directory(local_full_path, url_path_on_server, channel,
plugin_manager)`: fetch the XML listing (`remote`; a transport error
propagates uncaught), count the `objekt` elements as `total_files`, run
the per-file loop, and return `(total, downloaded, errored)` together with
the final filesystem. -/
def synchronize_directory (env : Env) (plugins : Registry) (fs : FS)
    (local_full_path channel : String) (remote : Except String (List Objekt)) :
    Except String ((Nat × Nat × Nat) × FS) :=
  match remote with
  | .error msg => .error msg
  | .ok objekts =>
    match sync_loop env plugins channel local_full_path fs objekts 0 0 with
    | .error msg => .error msg
    | .ok (d, e, fs1) => .ok ((objekts.length, d, e), fs1)

/-- `ok_files = total_files - errored_files - downloaded_files`, the
derived count logged by `synchronize_directory` and `main`. -/
def ok_files (total_files errored_files downloaded_files : Nat) : Nat :=
  total_files - errored_files - downloaded_files

/-- The channel loop of `main`: for each configured channel, build the
local path and call `synchronize_directory`, accumulating global totals
and appending the channel to `errors` when it reported `errored > 0`.
There is no `try` around the call: a channel-level failure propagates and
aborts the loop. -/
def main_loop (env : Env) (gx : String → Except String (List Objekt)) (plugins : Registry)
    (root_dir : String) (channels : List (String × String)) (fs : FS)
    (total_files total_downloaded total_errors : Nat) (errors : List String) :
    Except String ((Nat × Nat × Nat) × List String × FS) :=
  match channels with
  | [] => .ok ((total_files, total_downloaded, total_errors), errors, fs)
  | (channel, url_path_on_server) :: rest =>
    let local_full_path := pathJoin root_dir (lstripSlash channel)
    match synchronize_directory env plugins fs local_full_path channel (gx url_path_on_server) with
    | .error msg => .error msg
    | .ok ((total, downloaded, error), fs1) =>
      main_loop env gx plugins root_dir rest fs1
        (total_files + total) (total_downloaded + downloaded) (total_errors + error)
        (errors ++ if 0 < error then [channel] else [])

/-- `main`'s channel loop started with zeroed accumulators. -/
def main_run (env : Env) (gx : String → Except String (List Objekt)) (plugins : Registry)
    (root_dir : String) (channels : List (String × String)) (fs : FS) :
    Except String ((Nat × Nat × Nat) × List String × FS) :=
  main_loop env gx plugins root_dir channels fs 0 0 0 []

/-- How the dynamic loading of one plugin module can go inside
`PluginManager.load_plugin`: the plugin file is absent (logged, `None`
returned), executing the module raises (uncaught), the module lacks a
class named after the plugin (logged, `None` returned), the class
constructor raises (uncaught), or everything succeeds. -/
inductive PluginSource where
  | fileMissing
  | execRaises (msg : String)
  | classMissing
  | ctorRaises (msg : String)
  | okSource (p : Plugin)

/-- `PluginManager.load_plugin(name)`: returns `Option Plugin` (`none`
when the plugin is skipped with a logged error), but exceptions from
`exec_module` or the constructor propagate. -/
def load_plugin (envp : String → PluginSource) (name : String) :
    Except String (Option Plugin) :=
  match envp name with
  | .fileMissing => .ok none
  | .execRaises msg => .error msg
  | .classMissing => .ok none
  | .ctorRaises msg => .error msg
  | .okSource p => .ok (some p)

/-- Python `s.split(comma)` specialised to the comma separator used for
the channel lists of the `[Plugins]` config section: `"a,b"` becomes
`["a", "b"]` and the empty string becomes `[""]`. -/
def splitCommaAux : List Char → List Char → List String
  | [], acc => [String.mk acc.reverse]
  | c :: rest, acc =>
    if c = ',' then String.mk acc.reverse :: splitCommaAux rest []
    else splitCommaAux rest (c :: acc)

/-- Python `s.split(comma)`. -/
def splitComma (s : String) : List String := splitCommaAux s.data []

/-- `if channel not in plugins: plugins[channel] = []` — dict insertion in
first-seen order. -/
def addChannel (m : Registry) (c : String) : Registry :=
  if m.any (fun e => e.1 = c) then m else m ++ [(c, [])]

/-- `plugins[channel].append(plugin_instance)`. -/
def appendPlugin (m : Registry) (c : String) (p : Plugin) : Registry :=
  m.map (fun e => if e.1 = c then (e.1, e.2 ++ [p]) else e)

/-- The inner loop of `PluginManager.load_plugins` for one config entry:
for each channel of the comma-separated list, ensure the channel key
exists, load a fresh plugin instance, and append it when loading returned
an instance. -/
def load_channels (envp : String → PluginSource) (plugin_name : String)
    (chs : List String) (m : Registry) : Except String Registry :=
  match chs with
  | [] => .ok m
  | c :: rest =>
    let m1 := addChannel m c
    match load_plugin envp plugin_name with
    | .error msg => .error msg
    | .ok none => load_channels envp plugin_name rest m1
    | .ok (some p) => load_channels envp plugin_name rest (appendPlugin m1 c p)

/-- The outer loop of `PluginManager.load_plugins` over the `[Plugins]`
config section (plugin name to comma-separated channel names). -/
def load_plugins_aux (envp : String → PluginSource) (cfg : List (String × String))
    (m : Registry) : Except String Registry :=
  match cfg with
  | [] => .ok m
  | (plugin_name, channels) :: rest =>
    match load_channels envp plugin_name (splitComma channels) m with
    | .error msg => .error msg
    | .ok m1 => load_plugins_aux envp rest m1

/-- `PluginManager.load_plugins()`. -/
def load_plugins (envp : String → PluginSource) (cfg : List (String × String)) :
    Except String Registry :=
  load_plugins_aux envp cfg []

/-- A plugin source that neither raises on `exec_module` nor on
instantiation: the cases `load_plugin` turns into `.ok`. -/
def nonRaising : PluginSource → Bool
  | .execRaises _ => false
  | .ctorRaises _ => false
  | _ => true

/-- Concrete environment: no PDF has annotations, every download delivers
the bytes `[1, 2]`, the clock reads 50. -/
def env0 : Env := ⟨fun _ => [], fun _ _ => some [1, 2], 50⟩

/-- Concrete environment in which every PDF page carries an annotation. -/
def envAnn : Env := ⟨fun _ => [true], fun _ _ => some [1, 2], 50⟩

/-- Concrete listing oracle: channel url `u2` lists one file, every other
url fails with a transport error. -/
def gx0 : String → Except String (List Objekt) := fun u =>
  if u = "u2" then .ok [⟨some "a.txt", some "/srv/a.txt", some 10⟩] else .error "transport error"

/-- Concrete plugin whose `on_file_downloaded` hook always raises. -/
def plugFail : Plugin := fun _ => .error "hook failed"

/-- Concrete registry binding the failing plugin to channel `ch`. -/
def plugs2 : Registry := [("ch", [plugFail])]

/-- Concrete filesystem holding one annotated-capable PDF with mtime 5. -/
def fsA : FS := [("/r/d.pdf", ⟨5, [9]⟩)]

/-- Concrete plugin sources: every module raises a syntax error while
being executed. -/
def envBad : String → PluginSource := fun _ => .execRaises "SyntaxError"

/-- Concrete plugin sources: plugin `A` has no file, every other plugin
module lacks the expected class. -/
def envMiss : String → PluginSource := fun n => if n = "A" then .fileMissing else .classMissing

/-- Each pass through the fetch arm adds at most one, to exactly one of
the two counters. -/
theorem fetch_delta (env : Env) (plugins : Registry)
    (channel local_path server_url_path file_name : String) (fs : FS) :
    (fetch_file env plugins channel local_path server_url_path file_name fs).1 +
      (fetch_file env plugins channel local_path server_url_path file_name fs).2.1 ≤ 1 := by
  unfold fetch_file
  split
  · simp
  · split <;> simp

/-- Each pass through the `try` block adds at most one, to exactly one of
the two counters. -/
theorem body_delta (env : Env) (plugins : Registry)
    (channel local_path server_url_path file_name : String) (fs : FS) (vlozeno : Option Nat) :
    (process_body env plugins channel local_path server_url_path file_name fs vlozeno).1 +
      (process_body env plugins channel local_path server_url_path file_name fs vlozeno).2.1 ≤ 1 := by
  unfold process_body
  split
  · simp
  · split
    · split
      · split
        · simp
        · simp
        · apply fetch_delta
      · simp
    · apply fetch_delta

/-- A per-`objekt` step that does not crash the channel contributes at
most one between `downloaded` and `errored`. -/
theorem step_delta (env : Env) (plugins : Registry) (channel lfp : String) (fs : FS)
    (o : Objekt) (dd de : Nat) (fs1 : FS)
    (h : process_objekt env plugins channel lfp fs o = .ok (dd, de, fs1)) :
    dd + de ≤ 1 := by
  rcases o with ⟨jm, ce, vl⟩
  rcases jm with _ | fn
  · simp [process_objekt] at h
  · rcases ce with _ | c
    · simp [process_objekt] at h
    · simp only [process_objekt, Except.ok.injEq] at h
      have hb := body_delta env plugins channel (pathJoin lfp fn) (rsplit1 c ++ "/") fn fs vl
      rw [h] at hb
      simpa using hb

/-- The per-file loop never accumulates more than one count per record on
top of what it started with. -/
theorem loop_bound (env : Env) (plugins : Registry) (channel lfp : String) :
    ∀ (objekts : List Objekt) (fs : FS) (d e d1 e1 : Nat) (fs1 : FS),
      sync_loop env plugins channel lfp fs objekts d e = .ok (d1, e1, fs1) →
      d1 + e1 ≤ d + e + objekts.length := by
  intro objekts
  induction objekts with
  | nil =>
    intro fs d e d1 e1 fs1 h
    simp [sync_loop] at h
    omega
  | cons o rest ih =>
    intro fs d e d1 e1 fs1 h
    unfold sync_loop at h
    rcases hp : process_objekt env plugins channel lfp fs o with msg | ⟨dd, de, fs2⟩
    · rw [hp] at h
      simp at h
    · rw [hp] at h
      simp only [] at h
      have h2 := ih fs2 (d + dd) (e + de) d1 e1 fs1 h
      have h3 := step_delta env plugins channel lfp fs o dd de fs2 hp
      simp only [List.length_cons] at *
      omega

/-- Unrolling one non-crashing step of the per-file loop. -/
theorem sync_loop_cons (env : Env) (plugins : Registry) (channel lfp : String) (fs : FS)
    (o : Objekt) (rest : List Objekt) (d e dd de : Nat) (fs1 : FS)
    (h : process_objekt env plugins channel lfp fs o = .ok (dd, de, fs1)) :
    sync_loop env plugins channel lfp fs (o :: rest) d e =
      sync_loop env plugins channel lfp fs1 rest (d + dd) (e + de) := by
  simp only [sync_loop]
  rw [h]

/-- C7: a channel whose reconciliation completes returns counts with
`downloaded + errored <= total`, and the derived
`ok = total - errored - downloaded` makes
`downloaded + errored + ok = total` hold exactly. -/
theorem c7_counts_invariant (env : Env) (plugins : Registry) (fs : FS)
    (lfp channel : String) (remote : Except String (List Objekt))
    (t d e : Nat) (fs1 : FS)
    (h : synchronize_directory env plugins fs lfp channel remote = .ok ((t, d, e), fs1)) :
    d + e ≤ t ∧ d + e + ok_files t e d = t := by
  unfold synchronize_directory at h
  rcases remote with msg | objekts
  · simp at h
  · simp only [] at h
    rcases hl : sync_loop env plugins channel lfp fs objekts 0 0 with msg | ⟨d2, e2, fs2⟩
    · rw [hl] at h
      simp at h
    · rw [hl] at h
      simp only [Except.ok.injEq, Prod.mk.injEq] at h
      obtain ⟨⟨ht, hd, he⟩, hfs⟩ := h
      have hb := loop_bound env plugins channel lfp objekts fs 0 0 d2 e2 fs2 hl
      unfold ok_files
      omega

/-- C7 witness: the invariant at a concrete one-record channel run. -/
theorem c7_counts_invariant_witness :
    (1 : Nat) + 0 ≤ 1 ∧ 1 + 0 + ok_files 1 0 1 = 1 :=
  c7_counts_invariant env0 [] [] "/r" "ch"
    (.ok [⟨some "a.txt", some "/s/a.txt", some 7⟩]) 1 1 0
    [("/r/a.txt", ⟨50, [1, 2]⟩)] rfl

/-- C1 counterexample: with two configured channels whose first listing
fetch fails with a transport error, the channel loop of `main` does not
catch the failure — the whole run aborts with the propagated error and the
second channel is never attempted — even though the second channel alone
would have synchronized one file.  This contradicts the claim that the
orchestrator catches channel-level failures and still attempts every
subsequent channel. -/
theorem c1_counterexample :
    main_run env0 gx0 [] "/root" [("chA", "u1"), ("chB", "u2")] [] = .error "transport error" ∧
    main_run env0 gx0 [] "/root" [("chB", "u2")] [] =
      .ok ((1, 1, 0), [], [("/root/chB/a.txt", ⟨50, [1, 2]⟩)]) :=
  ⟨rfl, rfl⟩

/-- C1 amended: a failing metadata fetch of the first channel is not
caught by `main`'s channel loop; the exception propagates, aborting the
loop with the transport error so no later channel runs and no summary is
produced.  (A channel is recorded in the `errors` list only when it
completes with `errored > 0`.) -/
theorem c1_amended (env : Env) (gx : String → Except String (List Objekt))
    (plugins : Registry) (root ch url msg : String) (rest : List (String × String))
    (fs : FS) (tf td te : Nat) (errs : List String)
    (h : gx url = .error msg) :
    main_loop env gx plugins root ((ch, url) :: rest) fs tf td te errs = .error msg := by
  simp [main_loop, synchronize_directory, h]

/-- C1 amended witness: the propagation at the concrete failing oracle. -/
theorem c1_amended_witness :
    main_loop env0 gx0 [] "/root" [("chA", "u1")] [] 0 0 0 [] = .error "transport error" :=
  c1_amended env0 gx0 [] "/root" "chA" "u1" "transport error" [] [] 0 0 0 [] rfl

/-- C2: for a record that reaches the fetch arm (no local copy, or a
strictly older unannotated local copy), download and plugin dispatch are
one unit: a transport error counts the file as errored with the
filesystem untouched, and a raising plugin hook counts the file as
errored — not downloaded — even though the downloaded bytes are already
on disk; in both cases the loop continues with the next record. -/
theorem c2_download_plugin_unit (env : Env) (plugins : Registry)
    (channel lfp fn c : String) (ts : Nat) (fs : FS) (rest : List Objekt) (d e : Nat)
    (hreach : fs.lookup (pathJoin lfp fn) = none ∨
      ∃ lf, fs.lookup (pathJoin lfp fn) = some lf ∧ lf.mtime < ts ∧
        hasAnnotations env.pages fs (pathJoin lfp fn) = .ok false) :
    (env.dl (rsplit1 c ++ "/") fn = none →
      process_objekt env plugins channel lfp fs ⟨some fn, some c, some ts⟩ = .ok (0, 1, fs) ∧
      sync_loop env plugins channel lfp fs (⟨some fn, some c, some ts⟩ :: rest) d e =
        sync_loop env plugins channel lfp fs rest d (e + 1)) ∧
    (∀ bytes msg, env.dl (rsplit1 c ++ "/") fn = some bytes →
      run_plugins plugins channel (pathJoin lfp fn) = .error msg →
      process_objekt env plugins channel lfp fs ⟨some fn, some c, some ts⟩ =
        .ok (0, 1, writeFS fs (pathJoin lfp fn) bytes env.now) ∧
      sync_loop env plugins channel lfp fs (⟨some fn, some c, some ts⟩ :: rest) d e =
        sync_loop env plugins channel lfp (writeFS fs (pathJoin lfp fn) bytes env.now) rest d (e + 1)) := by
  constructor
  · intro hdl
    have hp : process_objekt env plugins channel lfp fs ⟨some fn, some c, some ts⟩ = .ok (0, 1, fs) := by
      rcases hreach with habs | ⟨lf, hlook, hlt, hann⟩
      · simp [process_objekt, process_body, fetch_file, habs, hdl]
      · simp [process_objekt, process_body, fetch_file, hlook, hlt, hann, hdl]
    refine ⟨hp, ?_⟩
    rw [sync_loop_cons env plugins channel lfp fs _ rest d e _ _ _ hp]
    simp
  · intro bytes msg hdl hpl
    have hp : process_objekt env plugins channel lfp fs ⟨some fn, some c, some ts⟩ =
        .ok (0, 1, writeFS fs (pathJoin lfp fn) bytes env.now) := by
      rcases hreach with habs | ⟨lf, hlook, hlt, hann⟩
      · simp [process_objekt, process_body, fetch_file, habs, hdl, hpl]
      · simp [process_objekt, process_body, fetch_file, hlook, hlt, hann, hdl, hpl]
    refine ⟨hp, ?_⟩
    rw [sync_loop_cons env plugins channel lfp fs _ rest d e _ _ _ hp]
    simp

/-- C2 witness: a freshly downloaded file whose bound plugin hook raises
is counted as errored while its bytes stay on disk. -/
theorem c2_download_plugin_unit_witness :
    process_objekt env0 plugs2 "ch" "/r" [] ⟨some "a.txt", some "/s/a.txt", some 7⟩ =
      .ok (0, 1, writeFS [] (pathJoin "/r" "a.txt") [1, 2] env0.now) ∧
    sync_loop env0 plugs2 "ch" "/r" [] [⟨some "a.txt", some "/s/a.txt", some 7⟩] 0 0 =
      sync_loop env0 plugs2 "ch" "/r" (writeFS [] (pathJoin "/r" "a.txt") [1, 2] env0.now) [] 0 (0 + 1) :=
  (c2_download_plugin_unit env0 plugs2 "ch" "/r" "a.txt" "/s/a.txt" 7 [] [] 0 0
    (Or.inl rfl)).2 [1, 2] "hook failed" rfl rfl

/-- C3: a record whose local copy exists, is strictly older than the
remote timestamp, and is reported annotated by the inspector is skipped:
the result counts it neither as downloaded nor as errored and the
filesystem — in particular the local file's bytes — is unchanged, for
every download oracle and every plugin registry (so no download and no
plugin dispatch can have happened). -/
theorem c3_annotation_guard (env : Env) (plugins : Registry)
    (channel lfp fn c : String) (ts : Nat) (fs : FS) (lf : LocalFile)
    (rest : List Objekt) (d e : Nat)
    (hlook : fs.lookup (pathJoin lfp fn) = some lf)
    (holder : lf.mtime < ts)
    (hann : hasAnnotations env.pages fs (pathJoin lfp fn) = .ok true) :
    process_objekt env plugins channel lfp fs ⟨some fn, some c, some ts⟩ = .ok (0, 0, fs) ∧
    sync_loop env plugins channel lfp fs (⟨some fn, some c, some ts⟩ :: rest) d e =
      sync_loop env plugins channel lfp fs rest d e := by
  have hp : process_objekt env plugins channel lfp fs ⟨some fn, some c, some ts⟩ = .ok (0, 0, fs) := by
    simp [process_objekt, process_body, hlook, holder, hann]
  refine ⟨hp, ?_⟩
  rw [sync_loop_cons env plugins channel lfp fs _ rest d e _ _ _ hp]
  simp

/-- C3 witness: the guard at a concrete annotated PDF. -/
theorem c3_annotation_guard_witness :
    process_objekt envAnn [] "ch" "/r" fsA ⟨some "d.pdf", some "/s/d.pdf", some 10⟩ =
      .ok (0, 0, fsA) ∧
    sync_loop envAnn [] "ch" "/r" fsA [⟨some "d.pdf", some "/s/d.pdf", some 10⟩] 0 0 =
      sync_loop envAnn [] "ch" "/r" fsA [] 0 0 :=
  c3_annotation_guard envAnn [] "ch" "/r" "d.pdf" "/s/d.pdf" 10 fsA ⟨5, [9]⟩ [] 0 0
    rfl (by decide) rfl

/-- C4 counterexample: a record whose file-name element is missing is not
a per-file error — the `AttributeError` is raised before the `try` block
and aborts the whole channel, so the following well-formed record is
never reconciled and no `ChannelResult` is produced.  This contradicts
the claim that a record missing the file name is an error for that file
only. -/
theorem c4_counterexample :
    synchronize_directory env0 [] [] "/root/ch" "ch"
      (.ok [⟨none, some "/p/c", some 10⟩, ⟨some "g.txt", some "/p/g.txt", some 10⟩]) =
      .error "AttributeError: NoneType has no text" :=
  rfl

/-- C4 amended: only a record whose timestamp element is missing or does
not parse is counted as an error for that file alone, with reconciliation
continuing on the remaining records; a record missing the file-name or
server-path element raises before the `try` block and is fatal to the
channel. -/
theorem c4_amended (env : Env) (plugins : Registry) (channel lfp fn c : String)
    (fs : FS) (rest : List Objekt) (d e : Nat) :
    (process_objekt env plugins channel lfp fs ⟨some fn, some c, none⟩ = .ok (0, 1, fs)) ∧
    (sync_loop env plugins channel lfp fs (⟨some fn, some c, none⟩ :: rest) d e =
      sync_loop env plugins channel lfp fs rest d (e + 1)) ∧
    (∀ oc ov, process_objekt env plugins channel lfp fs ⟨none, oc, ov⟩ =
      .error "AttributeError: NoneType has no text") ∧
    (∀ ov, process_objekt env plugins channel lfp fs ⟨some fn, none, ov⟩ =
      .error "AttributeError: NoneType has no text") := by
  have hp : process_objekt env plugins channel lfp fs ⟨some fn, some c, none⟩ = .ok (0, 1, fs) := by
    simp [process_objekt, process_body]
  refine ⟨hp, ?_, ?_, ?_⟩
  · rw [sync_loop_cons env plugins channel lfp fs _ rest d e _ _ _ hp]
    simp
  · intro oc ov
    simp [process_objekt]
  · intro ov
    simp [process_objekt]

/-- C5: a record whose local copy is at least as new as the remote
timestamp is skipped as up to date: counted neither as downloaded nor as
errored and the filesystem unchanged, for every download oracle and every
plugin registry. -/
theorem c5_up_to_date (env : Env) (plugins : Registry)
    (channel lfp fn c : String) (ts : Nat) (fs : FS) (lf : LocalFile)
    (rest : List Objekt) (d e : Nat)
    (hlook : fs.lookup (pathJoin lfp fn) = some lf)
    (hge : ts ≤ lf.mtime) :
    process_objekt env plugins channel lfp fs ⟨some fn, some c, some ts⟩ = .ok (0, 0, fs) ∧
    sync_loop env plugins channel lfp fs (⟨some fn, some c, some ts⟩ :: rest) d e =
      sync_loop env plugins channel lfp fs rest d e := by
  have hp : process_objekt env plugins channel lfp fs ⟨some fn, some c, some ts⟩ = .ok (0, 0, fs) := by
    simp [process_objekt, process_body, hlook, Nat.not_lt.mpr hge]
  refine ⟨hp, ?_⟩
  rw [sync_loop_cons env plugins channel lfp fs _ rest d e _ _ _ hp]
  simp

/-- C5 witness: a local copy newer than the remote timestamp at concrete
values. -/
theorem c5_up_to_date_witness :
    process_objekt envAnn [] "ch" "/r" fsA ⟨some "d.pdf", some "/s/d.pdf", some 3⟩ =
      .ok (0, 0, fsA) ∧
    sync_loop envAnn [] "ch" "/r" fsA [⟨some "d.pdf", some "/s/d.pdf", some 3⟩] 0 0 =
      sync_loop envAnn [] "ch" "/r" fsA [] 0 0 :=
  c5_up_to_date envAnn [] "ch" "/r" "d.pdf" "/s/d.pdf" 3 fsA ⟨5, [9]⟩ [] 0 0
    rfl (by decide)

/-- C6: a record with no corresponding local file is always fetched, for
every remote timestamp: when the download delivers bytes, the plugins
bound to the channel are dispatched (a raising hook turns the outcome
into an error, so the dispatch is observable) and on success the file is
written and counted as downloaded. -/
theorem c6_absent_fetch (env : Env) (plugins : Registry)
    (channel lfp fn c : String) (ts : Nat) (fs : FS) (bytes : List Nat)
    (habs : fs.lookup (pathJoin lfp fn) = none)
    (hdl : env.dl (rsplit1 c ++ "/") fn = some bytes) :
    (run_plugins plugins channel (pathJoin lfp fn) = .ok () →
      process_objekt env plugins channel lfp fs ⟨some fn, some c, some ts⟩ =
        .ok (1, 0, writeFS fs (pathJoin lfp fn) bytes env.now)) ∧
    (∀ msg, run_plugins plugins channel (pathJoin lfp fn) = .error msg →
      process_objekt env plugins channel lfp fs ⟨some fn, some c, some ts⟩ =
        .ok (0, 1, writeFS fs (pathJoin lfp fn) bytes env.now)) := by
  constructor
  · intro hpl
    simp [process_objekt, process_body, fetch_file, habs, hdl, hpl]
  · intro msg hpl
    simp [process_objekt, process_body, fetch_file, habs, hdl, hpl]

/-- C6 witness: a locally absent file downloaded and counted at concrete
values. -/
theorem c6_absent_fetch_witness :
    process_objekt env0 [] "ch" "/r" [] ⟨some "a.txt", some "/s/a.txt", some 7⟩ =
      .ok (1, 0, writeFS [] (pathJoin "/r" "a.txt") [1, 2] env0.now) :=
  (c6_absent_fetch env0 [] "ch" "/r" "a.txt" "/s/a.txt" 7 [] [1, 2] rfl rfl).1 rfl

/-- The inner channel loop of plugin loading succeeds whenever loading
this plugin does not raise. -/
theorem load_channels_ok (envp : String → PluginSource) (pname : String)
    (h : nonRaising (envp pname) = true) :
    ∀ (chs : List String) (m : Registry), ∃ m1, load_channels envp pname chs m = .ok m1 := by
  intro chs
  induction chs with
  | nil => intro m; exact ⟨m, rfl⟩
  | cons ch rest ih =>
    intro m
    rcases hsrc : envp pname with _ | msg | _ | msg | p
    · simpa [load_channels, load_plugin, hsrc] using ih (addChannel m ch)
    · rw [hsrc] at h; simp [nonRaising] at h
    · simpa [load_channels, load_plugin, hsrc] using ih (addChannel m ch)
    · rw [hsrc] at h; simp [nonRaising] at h
    · simpa [load_channels, load_plugin, hsrc] using ih (appendPlugin (addChannel m ch) ch p)

/-- The outer loop of plugin loading succeeds whenever no configured
plugin raises while being loaded. -/
theorem load_plugins_aux_ok (envp : String → PluginSource) :
    ∀ (cfg : List (String × String)) (m : Registry),
      (∀ e ∈ cfg, nonRaising (envp e.1) = true) →
      ∃ m1, load_plugins_aux envp cfg m = .ok m1 := by
  intro cfg
  induction cfg with
  | nil => intro m _; exact ⟨m, rfl⟩
  | cons entry rest ih =>
    intro m h
    obtain ⟨m2, hm2⟩ := load_channels_ok envp entry.1 (h entry (by simp))
      (splitComma entry.2) m
    obtain ⟨m1, hm1⟩ := ih m2 (fun e he => h e (by simp [he]))
    refine ⟨m1, ?_⟩
    rcases entry with ⟨pname, channels⟩
    simpa [load_plugins_aux, hm2] using hm1

/-- C8 counterexample: a configured plugin whose module raises while
being executed (a malformed plugin file) aborts the whole registry
construction — `load_plugins` propagates the exception instead of
omitting the plugin, so startup is aborted, contradicting the claim that
a malformed plugin is merely omitted. -/
theorem c8_counterexample :
    load_plugins envBad [("P", "ch")] = .error "SyntaxError" :=
  rfl

/-- C8 amended: a plugin whose file is missing or whose module lacks the
expected class is logged and omitted (`load_plugin` returns no instance
without raising), and when every configured plugin is of that
non-raising kind the registry is always built; but a plugin module that
raises while being executed or instantiated propagates its exception and
aborts startup. -/
theorem c8_amended (envp : String → PluginSource) (cfg : List (String × String))
    (h : ∀ e ∈ cfg, nonRaising (envp e.1) = true) :
    (∃ m, load_plugins envp cfg = .ok m) ∧
    (∀ name, envp name = .fileMissing ∨ envp name = .classMissing →
      load_plugin envp name = .ok none) := by
  refine ⟨load_plugins_aux_ok envp cfg [] h, ?_⟩
  intro name hn
  rcases hn with hn | hn <;> simp [load_plugin, hn]

/-- C8 amended witness: a missing-file plugin and a class-missing plugin
are omitted and the registry still gets built. -/
theorem c8_amended_witness :
    (∃ m, load_plugins envMiss [("A", "x,y"), ("B", "x")] = .ok m) ∧
    load_plugin envMiss "A" = .ok none := by
  have h := c8_amended envMiss [("A", "x,y"), ("B", "x")] (by decide)
  exact ⟨h.1, h.2 "A" (Or.inl rfl)⟩

/-- C9: dispatching plugins for a channel with no plugins bound (no
registry entry, or an entry holding the empty list because every bound
plugin failed to load) is a no-op that returns successfully, so a
downloaded file in such a channel is counted in `downloaded` exactly as
if dispatch had succeeded. -/
theorem c9_no_plugins_noop (env : Env) (plugins : Registry)
    (channel lfp fn c : String) (ts : Nat) (fs : FS) (bytes : List Nat)
    (h : plugins.lookup channel = none ∨ plugins.lookup channel = some [])
    (habs : fs.lookup (pathJoin lfp fn) = none)
    (hdl : env.dl (rsplit1 c ++ "/") fn = some bytes) :
    run_plugins plugins channel (pathJoin lfp fn) = .ok () ∧
    process_objekt env plugins channel lfp fs ⟨some fn, some c, some ts⟩ =
      .ok (1, 0, writeFS fs (pathJoin lfp fn) bytes env.now) := by
  have hrp : run_plugins plugins channel (pathJoin lfp fn) = .ok () := by
    rcases h with h | h <;> simp [run_plugins, run_list, h]
  exact ⟨hrp, by simp [process_objekt, process_body, fetch_file, habs, hdl, hrp]⟩

/-- C9 witness: a registry with a plugin bound to a different channel is
a successful no-op for `ch`, and the file counts as downloaded. -/
theorem c9_no_plugins_noop_witness :
    run_plugins [("other", [plugFail])] "ch" (pathJoin "/r" "b.txt") = .ok () ∧
    process_objekt env0 [("other", [plugFail])] "ch" "/r" []
      ⟨some "b.txt", some "/s/b.txt", some 9⟩ =
      .ok (1, 0, writeFS [] (pathJoin "/r" "b.txt") [1, 2] env0.now) :=
  c9_no_plugins_noop env0 [("other", [plugFail])] "ch" "/r" "b.txt" "/s/b.txt" 9 [] [1, 2]
    (Or.inl rfl) rfl rfl

/-- C10: the annotation inspector treats a file as able to carry
annotations only when the last four characters of its path are exactly
the lowercase string `.pdf`; for any other path it reports `false`
without opening the file — the result is `.ok false` for every
filesystem and every page oracle, including filesystems in which opening
the path would fail, and it can never report `true`. -/
theorem c10_pdf_suffix (path : String) (h : pySuffix4 path ≠ ".pdf") :
    (∀ pages fs, hasAnnotations pages fs path = .ok false) ∧
    (∀ pages fs, hasAnnotations pages fs path ≠ .ok true) := by
  have h1 : ∀ (pages : List Nat → List Bool) (fs : FS),
      hasAnnotations pages fs path = .ok false := by
    intro pages fs
    simp [hasAnnotations, h]
  refine ⟨h1, fun pages fs hc => ?_⟩
  rw [h1 pages fs] at hc
  simp at hc

/-- C10 witness: an uppercase `.PDF` suffix is not recognized, even on a
filesystem where every PDF page is annotated. -/
theorem c10_pdf_suffix_witness :
    hasAnnotations envAnn.pages fsA "x.PDF" = .ok false :=
  (c10_pdf_suffix "x.PDF" (by decide)).1 envAnn.pages fsA
